import Mathlib

/-!
# Verification of the DnD-TDL spatial placement engine

Shallow embedding of the client-side drag-and-drop placement engine of the
weekly task planner (`src/components/DragDropTodoList.tsx` together with the
`CanvasTodoItem` component): the `Todo` data model, geometric hit-testing
(`detectDateFromPosition`), the column-packing re-layout
(`snapTodosToSections`), the drag-end resolution (`handleDragEnd`), and the
optimistic mutation paths (`addTodo`, `handleTodoUpdate`, `deleteTodo`,
Escape handling during inline editing).

Modelling conventions:
* JavaScript numbers are modelled by exact fractions (`Frac`, an integer
  numerator with a positive integer denominator kept in lowest terms by the
  smart constructor `mkFrac`) extended with the IEEE special values
  `+Infinity`, `-Infinity` and `NaN` (type `JSNum`).  Negative zero is
  identified with zero; every value this code can produce behaves
  identically under that identification.  Exact division stands in for
  double division (all divisions here have small integer inputs).  Zone and
  canvas rectangles are taken with integer coordinates (whole CSS pixels).
* Calendar dates are modelled as integer day numbers; day 0 is a Monday, and
  `format(date, "EEEE")` becomes `dayName`.  `isSameDay` becomes equality of
  day numbers.
* Live DOM geometry (`getBoundingClientRect` of the `data-day-area` elements
  and of the canvas) is supplied as explicit rectangle parameters, in
  document order, matching the geometry-query collaborator of the spec.
* The asynchronous Supabase/audit-logger calls are modelled as emitted
  `Effect` values; the boolean parameter `ok` of each persistence wrapper is
  the outcome of the remote call, so that local-state independence from the
  outcome is expressible.
-/

/-- Structural gcd with explicit fuel, so that the kernel can evaluate it
(the first argument strictly decreases once positive, so fuel `a + 1`
always suffices in `natGcd`). -/
def gcdFuel : ℕ → ℕ → ℕ → ℕ
  | 0, _, b => b
  | f + 1, a, b => if a = 0 then b else gcdFuel f (b % a) a

/-- Greatest common divisor, kernel-computable. -/
def natGcd (a b : ℕ) : ℕ := gcdFuel (a + 1) a b

/-- An exact fraction: integer numerator and denominator.  Values built by
`mkFrac`/`fInt` are canonical: positive denominator, lowest terms.  All
fraction values produced by the embedded code are canonical, so structural
equality is value equality. -/
structure Frac where
  n : ℤ
  d : ℤ
deriving DecidableEq, Repr

/-- Smart constructor: sign-normalise and reduce to lowest terms.
`d = 0` never occurs in the embedded code (the JS layer tests for zero
divisors first); it is mapped to a dummy value for totality. -/
def mkFrac (n d : ℤ) : Frac :=
  if d = 0 then ⟨0, 1⟩
  else
    let n' := if d < 0 then -n else n
    let d' := if d < 0 then -d else d
    let g : ℤ := (natGcd n'.natAbs d'.natAbs : ℤ)
    if g = 0 then ⟨0, 1⟩ else ⟨n' / g, d' / g⟩

/-- Embed an integer as a canonical fraction. -/
def fInt (z : ℤ) : Frac := ⟨z, 1⟩

/-- Fraction addition. -/
def fAdd (a b : Frac) : Frac := mkFrac (a.n * b.d + b.n * a.d) (a.d * b.d)

/-- Fraction subtraction. -/
def fSub (a b : Frac) : Frac := mkFrac (a.n * b.d - b.n * a.d) (a.d * b.d)

/-- Fraction multiplication. -/
def fMul (a b : Frac) : Frac := mkFrac (a.n * b.n) (a.d * b.d)

/-- Fraction division (the JS layer guards the zero-divisor case). -/
def fDiv (a b : Frac) : Frac := mkFrac (a.n * b.d) (a.d * b.n)

/-- `≤` on canonical fractions (cross-multiplication; denominators are
positive). -/
def fLe (a b : Frac) : Bool := a.n * b.d ≤ b.n * a.d

/-- Floor of a canonical fraction (`Int.fdiv` is floor division). -/
def fFloor (a : Frac) : ℤ := a.n.fdiv a.d

/-- Ceiling of a canonical fraction. -/
def fCeil (a : Frac) : ℤ := -((-a.n).fdiv a.d)

/-- Truncation toward zero of a canonical fraction (T-division), as used by
the JS `%` operator. -/
def fTrunc (a : Frac) : ℤ := a.n / a.d

/-- JavaScript double values as produced by this code: exact fractions plus
the IEEE special values.  Negative zero is identified with `num 0`. -/
inductive JSNum where
  | num (q : Frac)
  | posInf
  | negInf
  | nan
deriving DecidableEq, Repr

/-- Embed an integer literal as a JS number. -/
def jNum (z : ℤ) : JSNum := .num (fInt z)

/-- JS `+` on numbers. -/
def jsAdd : JSNum → JSNum → JSNum
  | .nan, _ => .nan
  | _, .nan => .nan
  | .posInf, .negInf => .nan
  | .negInf, .posInf => .nan
  | .posInf, _ => .posInf
  | _, .posInf => .posInf
  | .negInf, _ => .negInf
  | _, .negInf => .negInf
  | .num a, .num b => .num (fAdd a b)

/-- JS `*` on numbers (0 · ∞ = NaN). -/
def jsMul : JSNum → JSNum → JSNum
  | .nan, _ => .nan
  | _, .nan => .nan
  | .posInf, .posInf => .posInf
  | .posInf, .negInf => .negInf
  | .negInf, .posInf => .negInf
  | .negInf, .negInf => .posInf
  | .posInf, .num b => if b.n = 0 then .nan else if 0 < b.n then .posInf else .negInf
  | .num a, .posInf => if a.n = 0 then .nan else if 0 < a.n then .posInf else .negInf
  | .negInf, .num b => if b.n = 0 then .nan else if 0 < b.n then .negInf else .posInf
  | .num a, .negInf => if a.n = 0 then .nan else if 0 < a.n then .negInf else .posInf
  | .num a, .num b => .num (fMul a b)

/-- JS `/` on numbers (x/0 = ±∞ for x ≠ 0, 0/0 = NaN, x/∞ = 0, ∞/∞ = NaN). -/
def jsDiv : JSNum → JSNum → JSNum
  | .nan, _ => .nan
  | _, .nan => .nan
  | .posInf, .posInf => .nan
  | .posInf, .negInf => .nan
  | .negInf, .posInf => .nan
  | .negInf, .negInf => .nan
  | .posInf, .num b => if 0 ≤ b.n then .posInf else .negInf
  | .negInf, .num b => if 0 ≤ b.n then .negInf else .posInf
  | .num _, .posInf => .num (fInt 0)
  | .num _, .negInf => .num (fInt 0)
  | .num a, .num b =>
      if b.n = 0 then (if a.n = 0 then .nan else if 0 < a.n then .posInf else .negInf)
      else .num (fDiv a b)

/-- JS `%` (remainder): NaN when either operand is NaN, the dividend is
infinite or the divisor is zero; the dividend when the divisor is infinite;
otherwise `a - b · trunc(a/b)`. -/
def jsRem : JSNum → JSNum → JSNum
  | .nan, _ => .nan
  | _, .nan => .nan
  | .posInf, _ => .nan
  | .negInf, _ => .nan
  | .num a, .posInf => .num a
  | .num a, .negInf => .num a
  | .num a, .num b =>
      if b.n = 0 then .nan
      else .num (fSub a (fMul b (fInt (fTrunc (fDiv a b)))))

/-- JS `Math.floor`. -/
def jsFloor : JSNum → JSNum
  | .nan => .nan
  | .posInf => .posInf
  | .negInf => .negInf
  | .num a => .num (fInt (fFloor a))

/-- JS `Math.ceil`. -/
def jsCeil : JSNum → JSNum
  | .nan => .nan
  | .posInf => .posInf
  | .negInf => .negInf
  | .num a => .num (fInt (fCeil a))

/-- JS `Math.min` (NaN-propagating). -/
def jsMin : JSNum → JSNum → JSNum
  | .nan, _ => .nan
  | _, .nan => .nan
  | .negInf, _ => .negInf
  | _, .negInf => .negInf
  | .posInf, b => b
  | a, .posInf => a
  | .num a, .num b => if fLe a b then .num a else .num b

/-- JS `Math.max` (NaN-propagating). -/
def jsMax : JSNum → JSNum → JSNum
  | .nan, _ => .nan
  | _, .nan => .nan
  | .posInf, _ => .posInf
  | _, .posInf => .posInf
  | .negInf, b => b
  | a, .negInf => a
  | .num a, .num b => if fLe a b then .num b else .num a

/-- JS `<=` comparison (false whenever NaN is involved). -/
def jsLe : JSNum → JSNum → Bool
  | .nan, _ => false
  | _, .nan => false
  | .negInf, _ => true
  | _, .posInf => true
  | .posInf, _ => false
  | _, .negInf => false
  | .num a, .num b => fLe a b

/-- A `DOMRect` as returned by `getBoundingClientRect`, restricted to
whole-pixel geometry: `{left, top, width, height}` with derived
`right`/`bottom`. -/
structure JRect where
  left : ℤ
  top : ℤ
  width : ℤ
  height : ℤ
deriving DecidableEq, Repr

/-- `DOMRect.right = left + width`. -/
def JRect.rightEdge (r : JRect) : ℤ := r.left + r.width

/-- `DOMRect.bottom = top + height`. -/
def JRect.bottomEdge (r : JRect) : ℤ := r.top + r.height

/-- The `status` field of a todo row. -/
inductive TStatus where
  | active
  | completed
  | deleted
deriving DecidableEq, Repr

/-- Day name for an integer day number (day 0 is a Monday); this models
`format(date, "EEEE")` of `date-fns`. -/
def dayName (d : ℤ) : String :=
  ["Monday", "Tuesday", "Wednesday", "Thursday", "Friday", "Saturday",
    "Sunday"].getD (d % 7).toNat ""

/-- The `Todo` interface from `DragDropTodoList.tsx`.  `scheduledDate` is an
integer day number or `none`; together with the legacy `dayOfWeek` field
(which carries the `"backlog"` sentinel) it encodes the bucket. -/
structure Todo where
  id : String
  text : String
  estimatedHours : ℚ
  status : TStatus
  position : JSNum × JSNum
  scheduledDate : Option ℤ
  dayOfWeek : Option String
  isEditing : Bool
  isInDatabase : Bool
deriving DecidableEq, Repr

/-- The bucket-relevant projection of a todo: its `(scheduledDate, dayOfWeek)`
pair.  Every bucket decision in the engine depends on a todo only through
this projection. -/
def keyOf (t : Todo) : Option ℤ × Option String := (t.scheduledDate, t.dayOfWeek)

/-- The bucket-match test used by `snapTodosToSections` when counting the
items that share a day area with the item of key `k`:
backlog items match backlog items, dated items match items with the same
date (`isSameDay`), and everything else matches nothing. -/
def matchesKey (k : Option ℤ × Option String) (u : Option ℤ × Option String) :
    Bool :=
  if k.2 = some "backlog" then u.2 = some "backlog"
  else
    match k.1 with
    | some d => match u.1 with
      | some e => d = e
      | none => false
    | none => false

/-- Number of todos in `l` that fall in the same day area as an item with
key `k` (the `filter(...).length` counts of `snapTodosToSections`). -/
def countMatching (k : Option ℤ × Option String) (l : List Todo) : ℕ :=
  (l.filter (fun u => matchesKey k (keyOf u))).length

/-- The `data-day-area` id targeted by an item: `"backlog-day"` for backlog
items, `"<EEEE>-day"` for dated items, none otherwise. -/
def dayAreaIdOfKey (k : Option ℤ × Option String) : Option String :=
  if k.2 = some "backlog" then some "backlog-day"
  else
    match k.1 with
    | some d => some (dayName d ++ "-day")
    | none => none

/-- Look up the live bounding rectangle of a day area by id
(models `document.querySelector` on `data-day-area` plus
`getBoundingClientRect`). -/
def zfind (zs : List (String × JRect)) (aid : String) : Option JRect :=
  (zs.find? (fun z => z.1 = aid)).map (fun z => z.2)

/-- `tasksPerColumn`: `Math.max(1, Math.floor(availableHeight / 35))` where
`availableHeight = height - headerHeight (90) - bottomPadding (5)`. -/
def tasksPerColumnOf (r : JRect) : ℕ :=
  (max 1 ((r.height - 90 - 5).fdiv 35)).toNat

/-- `maxColumns`: `Math.floor((width - leftPadding·2) / (columnWidth (170) +
columnSpacing (20)))` (`Int.fdiv` is the floor of the real division). -/
def maxColumnsOf (r : JRect) : ℤ :=
  (r.width - 10 * 2).fdiv (170 + 20)

/-- Position assigned in the normal (non-overflow) case: column x-offset
`left + 10 + columnIndex·190`, row y-offset `top + 90 + rowIndex·35`,
translated into canvas coordinates. -/
def normalSlot (cv dayRect : JRect) (colIdx rowIdx : ℕ) : JSNum × JSNum :=
  (jNum (dayRect.left - cv.left + 10 + colIdx * 190),
   jNum (dayRect.top - cv.top + 90 + rowIdx * 35))

/-- Position assigned by the overflow fallback (`columnIndex >= maxColumns`):
`adjustedTasksPerColumn = Math.ceil(totalTasks / maxColumns)`,
`adjustedTaskHeight = Math.min(35, availableHeight / adjustedTasksPerColumn)`,
then the column/row derivation is redone with the adjusted values.  The JS
arithmetic here can divide by zero, hence the `JSNum` operations. -/
def overflowSlot (cv dayRect : JRect) (total n : ℕ) : JSNum × JSNum :=
  let adj := jsCeil (jsDiv (jNum total) (jNum (maxColumnsOf dayRect)))
  let adjH := jsMin (jNum 35) (jsDiv (jNum (dayRect.height - 90 - 5)) adj)
  let colIdx := jsFloor (jsDiv (jNum n) adj)
  let rowIdx := jsRem (jNum n) adj
  (jsAdd (jNum (dayRect.left - cv.left + 10)) (jsMul colIdx (jNum 190)),
   jsAdd (jNum (dayRect.top - cv.top + 90)) (jsMul rowIdx adjH))

/-- The position computed by `snapTodosToSections` for the item of key `k`
sitting at list index `i` of `all`, once its day rectangle is known. -/
def computePos (cv dayRect : JRect) (all : List Todo) (i : ℕ)
    (k : Option ℤ × Option String) : JSNum × JSNum :=
  let n := countMatching k (all.take i)
  let tpc := tasksPerColumnOf dayRect
  let colIdx := n / tpc
  let rowIdx := n % tpc
  if maxColumnsOf dayRect ≤ (colIdx : ℤ) then
    overflowSlot cv dayRect (countMatching k all) n
  else normalSlot cv dayRect colIdx rowIdx

/-- The per-item body of the `currentTodos.map` inside
`snapTodosToSections`: items that are neither dated nor backlog are
returned untouched, as are items whose day area element is missing;
otherwise only the `position` field is replaced. -/
def snapOne (zs : List (String × JRect)) (cv : JRect) (all : List Todo)
    (i : ℕ) (t : Todo) : Todo :=
  if t.scheduledDate = none ∧ t.dayOfWeek ≠ some "backlog" then t
  else
    match dayAreaIdOfKey (keyOf t) with
    | none => t
    | some aid =>
      match zfind zs aid with
      | none => t
      | some r => { t with position := computePos cv r all i (keyOf t) }

/-- Index-passing map used to run `snapOne` over the list with its index. -/
def snapGo (f : ℕ → Todo → Todo) : ℕ → List Todo → List Todo
  | _, [] => []
  | i, t :: ts => f i t :: snapGo f (i + 1) ts

/-- `snapTodosToSections`: re-pack every bucketed todo into its day area,
given the live day-area rectangles `zs` and the canvas rectangle `cv`. -/
def snapTodosToSections (zs : List (String × JRect)) (cv : JRect)
    (ts : List Todo) : List Todo :=
  snapGo (snapOne zs cv ts) 0 ts

/-- The closed-interval containment test of `detectDateFromPosition`:
`relativeX >= rect.left && relativeX <= rect.right && relativeY >= rect.top
&& relativeY <= rect.bottom` (false whenever a coordinate is NaN). -/
def containsPt (r : JRect) (x y : JSNum) : Bool :=
  jsLe (jNum r.left) x && jsLe x (jNum r.rightEdge) &&
  jsLe (jNum r.top) y && jsLe y (jNum r.bottomEdge)

/-- The scan of `detectDateFromPosition` over the `data-day-area` elements
(in document order): the first zone whose rectangle contains the point
`(x + canvas.left, y + canvas.top)`. -/
def detectFindZone (zs : List (String × JRect)) (cv : JRect) (x y : JSNum) :
    Option (String × JRect) :=
  zs.find? (fun z =>
    containsPt z.2 (jsAdd x (jNum cv.left)) (jsAdd y (jNum cv.top)))

/-- Remove the first occurrence of `pat` from a character list
(JS `String.prototype.replace` with an empty replacement). -/
def removeFirstOcc (pat : List Char) : List Char → List Char
  | [] => []
  | c :: cs =>
    if pat.isPrefixOf (c :: cs) then (c :: cs).drop pat.length
    else c :: removeFirstOcc pat cs

/-- `dayId.replace("-day", "")`. -/
def stripDaySuffix (s : String) : String :=
  ⟨removeFirstOcc "-day".data s.data⟩

/-- Result of `detectDateFromPosition`: a JS `Date`, the string
`"backlog"`, or `null`.  Both "point in the incomplete zone" and "point in
no zone" produce `null` (`noMatch`). -/
inductive DetectResult where
  | noMatch
  | backlog
  | onDate (d : ℤ)
deriving DecidableEq, Repr

/-- `detectDateFromPosition`: hit-test the point against the day areas and
map the winning zone id to a date via the `weekDays` table
(`wd` is the list of `(name, fullDate)` pairs of the displayed week). -/
def detectDateFromPosition (zs : List (String × JRect)) (cv : JRect)
    (wd : List (String × ℤ)) (x y : JSNum) : DetectResult :=
  match detectFindZone zs cv x y with
  | none => .noMatch
  | some z =>
    if z.1 = "incomplete-day" then .noMatch
    else if z.1 = "backlog-day" then .backlog
    else
      match wd.find? (fun w => w.1 = stripDaySuffix z.1) with
      | some w => .onDate w.2
      | none => .noMatch

/-- The `weekDays` table built by the component for a week starting at day
`start`: seven `(EEEE-name, date)` pairs. -/
def mkWeekDays (start : ℤ) : List (String × ℤ) :=
  (List.range 7).map (fun i => (dayName (start + i), start + (i : ℤ)))

/-- Partial update record (`Partial<Todo>`): `none` means the field is
absent from the update object. -/
structure TodoUpdates where
  utext : Option String := none
  uhours : Option ℚ := none
  ustatus : Option TStatus := none
  upos : Option (JSNum × JSNum) := none
  usched : Option (Option ℤ) := none
  uday : Option (Option String) := none
  uedit : Option Bool := none
  udb : Option Bool := none
deriving DecidableEq, Repr

/-- JS object spread `{ ...todo, ...updates }`. -/
def applyUpd (t : Todo) (u : TodoUpdates) : Todo :=
  { t with
    text := u.utext.getD t.text
    estimatedHours := u.uhours.getD t.estimatedHours
    status := u.ustatus.getD t.status
    position := u.upos.getD t.position
    scheduledDate := u.usched.getD t.scheduledDate
    dayOfWeek := u.uday.getD t.dayOfWeek
    isEditing := u.uedit.getD t.isEditing
    isInDatabase := u.udb.getD t.isInDatabase }

/-- Kinds of audit-log records written by the history logger. -/
inductive AuditKind where
  | created
  | updated
  | deleted
deriving DecidableEq, Repr

/-- Observable effects emitted by the engine towards its collaborators:
console diagnostics, Supabase calls, and audit-log records. -/
inductive Effect where
  | consoleLog (msg : String)
  | consoleError (msg : String)
  | dbUpsert (t : Todo)
  | dbUpdate (id : String) (u : TodoUpdates)
  | audit (k : AuditKind) (id : String)
deriving DecidableEq, Repr

/-- Effects of `saveTodoToDatabase` (first persistence of a todo): the
upsert is issued, then either a success log plus the `logTodoCreated`
audit record, or only diagnostic error logs.  `ok` is the outcome of the
remote call. -/
def saveTodoToDatabaseEff (ok : Bool) (t : Todo) : List Effect :=
  [.consoleLog "Saving todo to database", .consoleLog "Database todo object",
    .dbUpsert t] ++
  if ok then [.consoleLog "Successfully saved todo", .audit .created t.id]
  else [.consoleError "Failed to save todo to database",
    .consoleError "Error details"]

/-- Effects of `updateTodo` (remote field update): the update is issued,
then a success log or only diagnostic error logs. -/
def updateTodoEff (ok : Bool) (id : String) (u : TodoUpdates) : List Effect :=
  [.consoleLog "Updating todo", .consoleLog "Database updates",
    .dbUpdate id u] ++
  if ok then [.consoleLog "Successfully updated todo"]
  else [.consoleError "Failed to update todo in database",
    .consoleError "Error details"]

/-- `addTodo`: append the todo to the local list unless one with the same
id already exists. -/
def addTodo (t : Todo) (st : List Todo) : List Todo :=
  match st.find? (fun u => u.id = t.id) with
  | some _ => st
  | none => st ++ [t]

/-- `deleteTodo`: remove the todo from the local list immediately, then
soft-delete remotely (status update); on success the deletion is
audit-logged (when the todo was found), on failure only an error is
logged.  The local removal does not depend on `ok`. -/
def deleteTodo (ok : Bool) (st : List Todo) (id : String) :
    List Todo × List Effect :=
  (st.filter (fun u => !(u.id = id)),
   [.dbUpdate id { ustatus := some .deleted }] ++
   if ok then
     (match st.find? (fun u => u.id = id) with
      | some _ => [.audit .deleted id]
      | none => [])
   else [.consoleError "Failed to delete todo from database"])

/-- The per-element body of `handleTodoUpdate`'s `prev.map`: apply the
update to the matching todo; a todo not yet in the database is first
persisted (upsert) exactly when its updated text is non-blank and its
updated estimate is positive; a todo already in the database gets a remote
update plus a `logTodoUpdated` audit record. -/
def handleTodoUpdateOne (okS okU : Bool) (id : String) (u : TodoUpdates)
    (t : Todo) : Todo × List Effect :=
  if t.id = id then
    if t.isInDatabase = false ∧ (applyUpd t u).text.trim ≠ "" ∧
        0 < (applyUpd t u).estimatedHours then
      ({ applyUpd t u with isInDatabase := true },
       saveTodoToDatabaseEff okS { applyUpd t u with isInDatabase := true })
    else if t.isInDatabase then
      (applyUpd t u, updateTodoEff okU id u ++ [.audit .updated id])
    else (applyUpd t u, [])
  else (t, [])

/-- `handleTodoUpdate`: optimistic local update of the list plus the
effects emitted along the way. -/
def handleTodoUpdate (okS okU : Bool) (st : List Todo) (id : String)
    (u : TodoUpdates) : List Todo × List Effect :=
  (st.map (fun t => (handleTodoUpdateOne okS okU id u t).1),
   (st.map (fun t => (handleTodoUpdateOne okS okU id u t).2)).flatten)

/-- The released point of a drag: original coordinate plus delta, clamped
to `[0, canvas.width - 80] × [0, canvas.height - 30]`. -/
def clampedDragPos (cv : JRect) (t : Todo) (d : ℤ × ℤ) : JSNum × JSNum :=
  (jsMax (jNum 0) (jsMin (jNum (cv.width - 80)) (jsAdd t.position.1 (jNum d.1))),
   jsMax (jNum 0) (jsMin (jNum (cv.height - 30)) (jsAdd t.position.2 (jNum d.2))))

/-- The todo produced by drag-end resolution: clamped coordinate, and the
bucket fields derived from the hit-test result (`"backlog"` clears the
date and sets the sentinel; a date sets both; `null` clears both). -/
def dragEndUpdatedTodo (t : Todo) (p : JSNum × JSNum) (det : DetectResult) :
    Todo :=
  { t with
    position := p
    scheduledDate := match det with
      | .backlog => none
      | .onDate dd => some dd
      | .noMatch => none
    dayOfWeek := match det with
      | .backlog => some "backlog"
      | .onDate dd => some (dayName dd)
      | .noMatch => none }

/-- `handleDragEnd`: find the dragged todo, clamp the released point,
hit-test it, update the local list optimistically, and issue the remote
update of position/date/day (whose outcome `ok` only affects logs). -/
def handleDragEnd (ok : Bool) (zs : List (String × JRect)) (cv : JRect)
    (wd : List (String × ℤ)) (st : List Todo) (aid : String) (d : ℤ × ℤ) :
    List Todo × List Effect :=
  match st.find? (fun u => u.id = aid) with
  | none => (st, [])
  | some t =>
    let p := clampedDragPos cv t d
    let det := detectDateFromPosition zs cv wd p.1 p.2
    let updated := dragEndUpdatedTodo t p det
    (st.map (fun u => if u.id = aid then updated else u),
     updateTodoEff ok updated.id
       { upos := some updated.position
         usched := some updated.scheduledDate
         uday := some updated.dayOfWeek })

/-- The Escape branch of `handleTextKeyDown` in `CanvasTodoItem`: the edit
is abandoned, and a todo whose committed text is empty is deleted. -/
def handleEscapeOnText (ok : Bool) (st : List Todo) (t : Todo) :
    List Todo × List Effect :=
  if t.text = "" then deleteTodo ok st t.id else (st, [])

/-! ## Concrete fixtures

Closed instances used to evaluate the engine on the scenarios named by the
spec (a canvas at the document origin, day-area rectangles, todo lists). -/

/-- A todo with the given id, bucket fields and position; the remaining
fields are fixed representative values. -/
def fxTodo (id : String) (sd : Option ℤ) (dw : Option String) (p : ℤ × ℤ) :
    Todo :=
  { id := id, text := "task", estimatedHours := 1, status := .active,
    position := (jNum p.1, jNum p.2), scheduledDate := sd, dayOfWeek := dw,
    isEditing := false, isInDatabase := true }

/-- A canvas whose rectangle starts at the document origin. -/
def fxCanvas : JRect := ⟨0, 0, 800, 600⟩

/-- C1 fixture: a single 100×100 Monday zone in the top-left corner. -/
def c1Zones : List (String × JRect) := [("Monday-day", ⟨0, 0, 100, 100⟩)]

/-- C1 fixture: a backlog item sitting at (300,300), outside the only zone. -/
def c1Todo : Todo := fxTodo "a" none (some "backlog") (300, 300)

/-- C1 fixture: the item list before the drag. -/
def c1State : List Todo := [c1Todo]

/-- C2 fixture: the `Monday` zone of the spec scenario,
rect `{left:0, top:0, width:170, height:400}`. -/
def c2Zones : List (String × JRect) := [("Monday-day", ⟨0, 0, 170, 400⟩)]

/-- C2 fixture: ten items scheduled on the Monday of the displayed week. -/
def c2Todos : List Todo :=
  (List.range 10).map (fun i => fxTodo (toString i) (some 0) (some "Monday") (0, 0))

/-- C3 fixture: a backlog zone whose rectangle contains the drop point
(170,50) of the spec scenario. -/
def c3Zones : List (String × JRect) := [("backlog-day", ⟨100, 0, 300, 300⟩)]

/-- C3 fixture: the unscheduled item at coordinate (120,60). -/
def c3Todo : Todo := fxTodo "a" none none (120, 60)

/-- C3 fixture: the item list after the drag by delta (50,-10) has been
resolved by `handleDragEnd`. -/
def c3After : List Todo :=
  (handleDragEnd true c3Zones fxCanvas (mkWeekDays 0) [c3Todo] "a" (50, -10)).1

/-- C4 fixture: a Monday zone of width 400 and height 180
(`maxColumns = 2`, `tasksPerColumn = 2`). -/
def c4Zones : List (String × JRect) := [("Monday-day", ⟨0, 0, 400, 180⟩)]

/-- C4 fixture: seven items scheduled on the Monday of the displayed week
(more than `tasksPerColumn · maxColumns = 4`). -/
def c4Todos : List Todo :=
  (List.range 7).map (fun i => fxTodo (toString i) (some 0) (some "Monday") (0, 0))

/-- C7/C9/C10 fixture: a freshly created, unscheduled, not-yet-persisted
todo with empty text. -/
def fxFresh : Todo :=
  { id := "new", text := "", estimatedHours := 1, status := .active,
    position := (jNum 40, jNum 40), scheduledDate := none, dayOfWeek := none,
    isEditing := true, isInDatabase := false }

/-! ## Generic lemmas about the embedded operations -/

/-- `find?` returns the head of the filtered list: the first-match scan of a
linear search. -/
theorem find?_eq_filter_head? {α : Type} (p : α → Bool) (l : List α) :
    l.find? p = (l.filter p).head? := by
  induction l with
  | nil => rfl
  | cons a l ih =>
    cases h : p a with
    | true =>
      rw [List.find?_cons_of_pos _ h, List.filter_cons_of_pos h]
      rfl
    | false =>
      rw [List.find?_cons_of_neg _ (by simp [h]),
        List.filter_cons_of_neg (by simp [h]), ih]

/-- `snapOne` when the item is neither dated nor backlog: untouched. -/
theorem snapOne_of_unbucketed (zs : List (String × JRect)) (cv : JRect)
    (all : List Todo) (i : ℕ) (t : Todo)
    (hg : t.scheduledDate = none ∧ t.dayOfWeek ≠ some "backlog") :
    snapOne zs cv all i t = t := by
  unfold snapOne
  rw [if_pos hg]

/-- `snapOne` when the item has no day-area id (unreachable for bucketed
items, kept for faithfulness): untouched. -/
theorem snapOne_of_noArea (zs : List (String × JRect)) (cv : JRect)
    (all : List Todo) (i : ℕ) (t : Todo)
    (hg : ¬(t.scheduledDate = none ∧ t.dayOfWeek ≠ some "backlog"))
    (ha : dayAreaIdOfKey (keyOf t) = none) :
    snapOne zs cv all i t = t := by
  unfold snapOne
  rw [if_neg hg]
  simp only [ha]

/-- `snapOne` when the day-area element is missing: untouched. -/
theorem snapOne_of_noZone (zs : List (String × JRect)) (cv : JRect)
    (all : List Todo) (i : ℕ) (t : Todo) (aid : String)
    (hg : ¬(t.scheduledDate = none ∧ t.dayOfWeek ≠ some "backlog"))
    (ha : dayAreaIdOfKey (keyOf t) = some aid)
    (hz : zfind zs aid = none) :
    snapOne zs cv all i t = t := by
  unfold snapOne
  rw [if_neg hg]
  simp only [ha, hz]

/-- `snapOne` when the day area is found: only the position changes. -/
theorem snapOne_of_zone (zs : List (String × JRect)) (cv : JRect)
    (all : List Todo) (i : ℕ) (t : Todo) (aid : String) (r : JRect)
    (hg : ¬(t.scheduledDate = none ∧ t.dayOfWeek ≠ some "backlog"))
    (ha : dayAreaIdOfKey (keyOf t) = some aid)
    (hz : zfind zs aid = some r) :
    snapOne zs cv all i t = { t with position := computePos cv r all i (keyOf t) } := by
  unfold snapOne
  rw [if_neg hg]
  simp only [ha, hz]

/-- `snapOne` never changes the bucket fields of a todo. -/
theorem keyOf_snapOne (zs : List (String × JRect)) (cv : JRect)
    (all : List Todo) (i : ℕ) (t : Todo) :
    keyOf (snapOne zs cv all i t) = keyOf t := by
  unfold snapOne
  split
  · rfl
  · split
    · rfl
    · split
      · rfl
      · rfl

/-- `snapGo` preserves the bucket projection of the list, provided the
per-element function does. -/
theorem snapGo_map_keyOf (f : ℕ → Todo → Todo)
    (hf : ∀ i t, keyOf (f i t) = keyOf t) :
    ∀ (i : ℕ) (l : List Todo), (snapGo f i l).map keyOf = l.map keyOf := by
  intro i l
  induction l generalizing i with
  | nil => rfl
  | cons t ts ih => simp [snapGo, hf, ih]

/-- `countMatching` factors through the bucket projection of the list. -/
theorem countMatching_eq_keys (k : Option ℤ × Option String) (m : List Todo) :
    countMatching k m = ((m.map keyOf).filter (matchesKey k)).length := by
  induction m with
  | nil => rfl
  | cons a as ih =>
    simp only [countMatching, List.map_cons, List.filter] at ih ⊢
    cases h : matchesKey k (keyOf a) with
    | true => simp only [h, List.length_cons, ih]
    | false => simp only [h, ih]

/-- `countMatching` only looks at the bucket projection of the list. -/
theorem countMatching_congr (k : Option ℤ × Option String)
    {l l' : List Todo} (h : l.map keyOf = l'.map keyOf) :
    countMatching k l = countMatching k l' := by
  rw [countMatching_eq_keys, countMatching_eq_keys, h]

/-- `computePos` only looks at the bucket projection of the full list. -/
theorem computePos_congr (cv dayRect : JRect) {all all' : List Todo} (i : ℕ)
    (k : Option ℤ × Option String) (h : all.map keyOf = all'.map keyOf) :
    computePos cv dayRect all i k = computePos cv dayRect all' i k := by
  have htake : (all.take i).map keyOf = (all'.take i).map keyOf := by
    rw [List.map_take, List.map_take, h]
  unfold computePos
  rw [countMatching_congr k htake, countMatching_congr k h]

/-- `snapOne` only looks at the bucket projection of the full list. -/
theorem snapOne_congr (zs : List (String × JRect)) (cv : JRect)
    {all all' : List Todo} (i : ℕ) (t : Todo)
    (h : all.map keyOf = all'.map keyOf) :
    snapOne zs cv all i t = snapOne zs cv all' i t := by
  unfold snapOne
  split
  · rfl
  · split
    · rfl
    · split
      · rfl
      · rw [computePos_congr _ _ _ _ h]

/-- `snapGo` congruence in the per-element function. -/
theorem snapGo_congr {f g : ℕ → Todo → Todo} (h : ∀ i t, f i t = g i t) :
    ∀ (i : ℕ) (l : List Todo), snapGo f i l = snapGo g i l := by
  intro i l
  induction l generalizing i with
  | nil => rfl
  | cons t ts ih => simp [snapGo, h, ih]

/-- Applying `snapOne` twice at the same index (over the same full list)
is the same as applying it once. -/
theorem snapOne_idem (zs : List (String × JRect)) (cv : JRect)
    (all : List Todo) (i : ℕ) (t : Todo) :
    snapOne zs cv all i (snapOne zs cv all i t) = snapOne zs cv all i t := by
  by_cases hg : t.scheduledDate = none ∧ t.dayOfWeek ≠ some "backlog"
  · rw [snapOne_of_unbucketed _ _ _ _ _ hg, snapOne_of_unbucketed _ _ _ _ _ hg]
  · cases ha : dayAreaIdOfKey (keyOf t) with
    | none =>
      rw [snapOne_of_noArea _ _ _ _ _ hg ha, snapOne_of_noArea _ _ _ _ _ hg ha]
    | some aid =>
      cases hz : zfind zs aid with
      | none =>
        rw [snapOne_of_noZone _ _ _ _ _ _ hg ha hz,
          snapOne_of_noZone _ _ _ _ _ _ hg ha hz]
      | some r =>
        rw [snapOne_of_zone _ _ _ _ _ _ _ hg ha hz]
        have hg' : ¬((({ t with position := computePos cv r all i (keyOf t) } :
            Todo)).scheduledDate = none ∧
            ({ t with position := computePos cv r all i (keyOf t) } :
            Todo).dayOfWeek ≠ some "backlog") := hg
        rw [snapOne_of_zone _ _ _ _ _ _ _ hg' ha hz]
        rfl

/-- Iterating `snapGo` with an idempotent per-element function is
idempotent. -/
theorem snapGo_idem (f : ℕ → Todo → Todo)
    (hf : ∀ i t, f i (f i t) = f i t) :
    ∀ (i : ℕ) (l : List Todo), snapGo f i (snapGo f i l) = snapGo f i l := by
  intro i l
  induction l generalizing i with
  | nil => rfl
  | cons t ts ih => simp [snapGo, hf, ih]

/-- Elements of `snapGo`, pointwise. -/
theorem snapGo_get? (f : ℕ → Todo → Todo) :
    ∀ (i : ℕ) (l : List Todo) (j : ℕ),
      (snapGo f i l).get? j = (l.get? j).map (f (i + j)) := by
  intro i l
  induction l generalizing i with
  | nil => intro j; cases j <;> rfl
  | cons t ts ih =>
    intro j
    cases j with
    | zero => rfl
    | succ j =>
      show (snapGo f (i + 1) ts).get? j = (ts.get? j).map (f (i + (j + 1)))
      rw [ih (i + 1) j]
      have harith : i + 1 + j = i + (j + 1) := by omega
      rw [harith]

/-! ## Claims -/

/-- C5: for every point and every set of drop-zone rectangles, hit-testing
declares the point inside a zone iff `left ≤ x ≤ left+width` and
`top ≤ y ≤ top+height` (closed interval on all sides), and the scan
returns the first zone in declaration order among those containing the
point — `none` exactly when no zone contains it. -/
theorem claim_c5_hit_testing (zs : List (String × JRect)) (cv : JRect)
    (x y : JSNum) :
    detectFindZone zs cv x y =
      (zs.filter (fun z =>
        containsPt z.2 (jsAdd x (jNum cv.left)) (jsAdd y (jNum cv.top)))).head?
    ∧ ∀ (r : JRect) (a b : ℤ),
        containsPt r (jNum a) (jNum b) = true ↔
          (r.left ≤ a ∧ a ≤ r.left + r.width ∧ r.top ≤ b ∧ b ≤ r.top + r.height) := by
  constructor
  · exact find?_eq_filter_head? _ zs
  · intro r a b
    simp [containsPt, jsLe, jNum, JRect.rightEdge, JRect.bottomEdge, fLe,
      fInt, and_assoc]

/-- C6: column-packing is idempotent — for every item list and fixed zone
geometry, running `snapTodosToSections` twice produces the same list (in
particular the same coordinates) as running it once. -/
theorem claim_c6_snap_idempotent (zs : List (String × JRect)) (cv : JRect)
    (ts : List Todo) :
    snapTodosToSections zs cv (snapTodosToSections zs cv ts) =
      snapTodosToSections zs cv ts := by
  unfold snapTodosToSections
  have hkeys : (snapGo (snapOne zs cv ts) 0 ts).map keyOf = ts.map keyOf :=
    snapGo_map_keyOf _ (keyOf_snapOne zs cv ts) 0 ts
  rw [snapGo_congr (fun i t => snapOne_congr zs cv i t hkeys)]
  exact snapGo_idem _ (snapOne_idem zs cv ts) 0 ts

/-- C7: an item whose bucket is null (no scheduled date and not in the
backlog) is left completely untouched by the column-packing pass — in
particular its coordinate before equals its coordinate after. -/
theorem claim_c7_null_bucket_untouched (zs : List (String × JRect))
    (cv : JRect) (ts : List Todo) (i : ℕ) (t : Todo)
    (h1 : ts.get? i = some t) (h2 : t.scheduledDate = none)
    (h3 : t.dayOfWeek ≠ some "backlog") :
    (snapTodosToSections zs cv ts).get? i = some t := by
  unfold snapTodosToSections
  rw [snapGo_get?, h1]
  show some (snapOne zs cv ts (0 + i) t) = some t
  rw [Nat.zero_add, snapOne_of_unbucketed zs cv ts i t ⟨h2, h3⟩]

/-- C7 witness: the fresh unscheduled todo at index 0 is untouched by a
packing pass. -/
theorem claim_c7_witness :
    (snapTodosToSections c1Zones fxCanvas [fxFresh]).get? 0 = some fxFresh :=
  claim_c7_null_bucket_untouched c1Zones fxCanvas [fxFresh] 0 fxFresh rfl rfl
    (by decide)

/-- The local-state component of `handleTodoUpdateOne` does not depend on
the persistence outcomes. -/
theorem handleTodoUpdateOne_fst (okS okU okS' okU' : Bool) (id : String)
    (u : TodoUpdates) (t : Todo) :
    (handleTodoUpdateOne okS okU id u t).1 =
      (handleTodoUpdateOne okS' okU' id u t).1 := by
  unfold handleTodoUpdateOne
  split_ifs <;> rfl

/-- C8: for the three mutations (drag-end update, field update, delete) the
in-memory item list is computed optimistically and is identical for a
failed and for a successful persistence call — a failure changes only the
emitted diagnostics.  In particular the local list produced by
`deleteTodo` is the plain filter of the previous list, independent of the
remote outcome. -/
theorem claim_c8_optimistic_state (zs : List (String × JRect)) (cv : JRect)
    (wd : List (String × ℤ)) (st : List Todo) (aid id did : String)
    (d : ℤ × ℤ) (u : TodoUpdates) (ok1 ok2 okS1 okU1 okS2 okU2 : Bool) :
    (handleDragEnd ok1 zs cv wd st aid d).1 =
      (handleDragEnd ok2 zs cv wd st aid d).1
    ∧ (handleTodoUpdate okS1 okU1 st id u).1 =
        (handleTodoUpdate okS2 okU2 st id u).1
    ∧ (deleteTodo ok1 st did).1 = (deleteTodo ok2 st did).1
    ∧ (deleteTodo ok1 st did).1 = st.filter (fun t => !(t.id = did)) := by
  refine ⟨?_, ?_, rfl, rfl⟩
  · cases h : st.find? (fun v => v.id = aid) with
    | none => simp [handleDragEnd, h]
    | some t => simp [handleDragEnd, h]
  · unfold handleTodoUpdate
    exact List.map_congr_left (fun t _ =>
      handleTodoUpdateOne_fst okS1 okU1 okS2 okU2 id u t)

/-- C9: an item whose committed label is empty when Escape is pressed is
removed from the item list, and no create/upsert is ever issued for it
(the only remote call of the delete path is the soft-delete status
update); moreover a not-yet-persisted item is first persisted (upserted)
by a field update exactly when its updated label is non-blank and its
updated estimate is positive. -/
theorem claim_c9_empty_escape_not_persisted (ok : Bool) (st : List Todo)
    (t : Todo) (hempty : t.text = "") :
    (handleEscapeOnText ok st t).1 = st.filter (fun u => !(u.id = t.id))
    ∧ (∀ v : Todo, Effect.dbUpsert v ∉ (handleEscapeOnText ok st t).2)
    ∧ (∀ (okS okU : Bool) (u : Todo) (upd : TodoUpdates),
        u.isInDatabase = false →
        ((∃ v, Effect.dbUpsert v ∈ (handleTodoUpdateOne okS okU u.id upd u).2) ↔
          ((applyUpd u upd).text.trim ≠ "" ∧ 0 < (applyUpd u upd).estimatedHours))) := by
  refine ⟨?_, ?_, ?_⟩
  · simp [handleEscapeOnText, hempty, deleteTodo]
  · intro v hv
    cases h : st.find? (fun u => u.id = t.id) <;> cases ok <;>
      simp [handleEscapeOnText, hempty, deleteTodo, h] at hv
  · intro okS okU u upd hdb
    unfold handleTodoUpdateOne
    rw [if_pos rfl]
    by_cases hc : (applyUpd u upd).text.trim ≠ "" ∧
        0 < (applyUpd u upd).estimatedHours
    · rw [if_pos ⟨hdb, hc.1, hc.2⟩]
      constructor
      · intro _; exact hc
      · intro _
        exact ⟨{ applyUpd u upd with isInDatabase := true },
          by cases okS <;> simp [saveTodoToDatabaseEff]⟩
    · rw [if_neg (by tauto), if_neg (by simp [hdb])]
      constructor
      · rintro ⟨v, hv⟩
        simp at hv
      · intro h
        exact absurd h hc

/-- C9 witness: the fresh empty-text todo, escaped with the list `[fxFresh]`. -/
theorem claim_c9_witness :
    (handleEscapeOnText true [fxFresh] fxFresh).1 =
      [fxFresh].filter (fun u => !(u.id = fxFresh.id))
    ∧ (∀ v : Todo, Effect.dbUpsert v ∉ (handleEscapeOnText true [fxFresh] fxFresh).2)
    ∧ (∀ (okS okU : Bool) (u : Todo) (upd : TodoUpdates),
        u.isInDatabase = false →
        ((∃ v, Effect.dbUpsert v ∈ (handleTodoUpdateOne okS okU u.id upd u).2) ↔
          ((applyUpd u upd).text.trim ≠ "" ∧ 0 < (applyUpd u upd).estimatedHours))) :=
  claim_c9_empty_escape_not_persisted true [fxFresh] fxFresh rfl

/-- C10: the in-memory list never acquires two items with the same id via
`addTodo` — adding an item whose id already occurs leaves the list
unchanged, and `addTodo` preserves distinctness of the stored ids. -/
theorem claim_c10_unique_ids (t : Todo) (st : List Todo) :
    ((∃ u ∈ st, u.id = t.id) → addTodo t st = st)
    ∧ ((st.map Todo.id).Nodup → ((addTodo t st).map Todo.id).Nodup) := by
  constructor
  · rintro ⟨u, hu, hid⟩
    unfold addTodo
    cases h : st.find? (fun v => v.id = t.id) with
    | none =>
      have := List.find?_eq_none.mp h u hu
      simp [hid] at this
    | some _ => rfl
  · intro hnd
    unfold addTodo
    cases h : st.find? (fun v => v.id = t.id) with
    | some _ => exact hnd
    | none =>
      rw [List.map_append]
      refine List.Nodup.append hnd (List.nodup_singleton _) ?_
      intro a ha hb
      have hat : a = t.id := by simpa using hb
      obtain ⟨u, hu, rfl⟩ := List.mem_map.mp ha
      have := List.find?_eq_none.mp h u hu
      simp [hat] at this

/-- C10 witness: re-adding an existing id is a no-op, and adding to the
empty list keeps ids distinct. -/
theorem claim_c10_witness :
    addTodo (fxTodo "dup" none none (0, 0)) [fxTodo "dup" none none (0, 0)] =
      [fxTodo "dup" none none (0, 0)]
    ∧ ((addTodo fxFresh []).map Todo.id).Nodup :=
  ⟨(claim_c10_unique_ids (fxTodo "dup" none none (0, 0))
      [fxTodo "dup" none none (0, 0)]).1
    ⟨fxTodo "dup" none none (0, 0), by simp, rfl⟩,
   (claim_c10_unique_ids fxFresh []).2 (by simp)⟩

/-- C1 counterexample: a backlog item dragged so that its clamped release
point (300,300) lies outside every drop zone does NOT keep its bucket —
`handleDragEnd` nulls both bucket fields, because the no-match `null` of
`detectDateFromPosition` is indistinguishable from a drop in the
"incomplete" zone. -/
theorem claim_c1_counterexample :
    detectDateFromPosition c1Zones fxCanvas (mkWeekDays 0) (jNum 300)
      (jNum 300) = .noMatch
    ∧ c1State.map Todo.dayOfWeek = [some "backlog"]
    ∧ ((handleDragEnd true c1Zones fxCanvas (mkWeekDays 0) c1State "a"
        (0, 0)).1).map Todo.dayOfWeek = [none]
    ∧ ((handleDragEnd true c1Zones fxCanvas (mkWeekDays 0) c1State "a"
        (0, 0)).1).map Todo.scheduledDate = [(none : Option ℤ)] := by
  decide

/-- C1 amended: when the released (clamped) point lies outside every
drop-zone rectangle, drag-end resolution does not preserve the previous
bucket: it sets the item's bucket to null/unscheduled (`scheduledDate`
and `dayOfWeek` both cleared) while retaining the raw clamped
coordinate. -/
theorem claim_c1_amended_outside_nulls_bucket (ok : Bool)
    (zs : List (String × JRect)) (cv : JRect) (wd : List (String × ℤ))
    (st : List Todo) (aid : String) (d : ℤ × ℤ) (t : Todo)
    (hfind : st.find? (fun u => u.id = aid) = some t)
    (hdet : detectDateFromPosition zs cv wd (clampedDragPos cv t d).1
      (clampedDragPos cv t d).2 = .noMatch) :
    (handleDragEnd ok zs cv wd st aid d).1 =
      st.map (fun u => if u.id = aid then
        { t with position := clampedDragPos cv t d, scheduledDate := none, dayOfWeek := none } else u) := by
  unfold handleDragEnd
  simp only [hfind, hdet, dragEndUpdatedTodo]

/-- C1 witness: the amended statement evaluated on the concrete outside
drop. -/
theorem claim_c1_witness :
    (handleDragEnd true c1Zones fxCanvas (mkWeekDays 0) c1State "a" (0, 0)).1 =
      c1State.map (fun u => if u.id = "a" then
        { c1Todo with position := clampedDragPos fxCanvas c1Todo (0, 0), scheduledDate := none, dayOfWeek := none } else u) :=
  claim_c1_amended_outside_nulls_bucket true c1Zones fxCanvas (mkWeekDays 0)
    c1State "a" (0, 0) c1Todo (by decide) (by decide)

/-- C2 counterexample: in the spec's Monday scenario the item of index 1
is placed at (10,90), not at the claimed (10,125) — the 170-wide zone
fits zero 190-pixel columns, so every item takes the overflow fallback. -/
theorem claim_c2_counterexample :
    ((snapTodosToSections c2Zones fxCanvas c2Todos).map Todo.position).get? 1 =
      some (jNum 10, jNum 90)
    ∧ ((jNum 10, jNum 90) : JSNum × JSNum) ≠ (jNum 10, jNum 125) := by
  decide

/-- C2 amended: `rowsPerColumn = floor((400-90-5)/35) = 8` is computed as
claimed, but `maxColumns = floor((170-20)/190) = 0`, so all ten items
fall into the overflow fallback, whose division by zero produces an
infinite `adjustedRowsPerColumn` and a zero adjusted row height: every
item is placed at the single point (10,90). -/
theorem claim_c2_amended_all_items_collapse :
    tasksPerColumnOf ⟨0, 0, 170, 400⟩ = 8
    ∧ maxColumnsOf ⟨0, 0, 170, 400⟩ = 0
    ∧ (snapTodosToSections c2Zones fxCanvas c2Todos).map Todo.position =
        List.replicate 10 (jNum 10, jNum 90) := by
  decide

/-- C3 counterexample: after the complete drag-end resolution of the spec
scenario (drop point (170,50) inside the backlog zone), the item's
coordinate is still the raw clamped point (170,50) — no column-packing
pass runs as part of drag-end — and that raw point is what is sent to the
persistence collaborator. -/
theorem claim_c3_counterexample :
    c3After.map Todo.position = [(jNum 170, jNum 50)]
    ∧ Effect.dbUpdate "a"
        { upos := some (jNum 170, jNum 50), usched := some none,
          uday := some (some "backlog") } ∈
        (handleDragEnd true c3Zones fxCanvas (mkWeekDays 0) [c3Todo] "a"
          (50, -10)).2 := by
  decide

/-- C3 amended: drag-end reassigns the bucket (the item becomes a backlog
item) but keeps the raw clamped coordinate; only when a later
`snapTodosToSections` pass runs (initial load, resize, explicit align)
is the coordinate overwritten with the packed slot — here (110,90),
independent of the raw drop point. -/
theorem claim_c3_amended_packing_only_later :
    c3After.map Todo.dayOfWeek = [some "backlog"]
    ∧ c3After.map Todo.scheduledDate = [(none : Option ℤ)]
    ∧ (snapTodosToSections c3Zones fxCanvas c3After).map Todo.position =
        [(jNum 110, jNum 90)] := by
  decide

/-- C4 failing input evaluated: with the Monday zone 400×180
(`rowsPerColumn = 2`, `maxColumns = 2`) and seven Monday items
(`2·2 < 7`), the items of indices 2 (normal branch) and 4 (adjusted
overflow branch) are both placed at (200,90): the adjusted packing does
not give the N items N distinct, non-overlapping slots. -/
theorem claim_c4_collision :
    tasksPerColumnOf ⟨0, 0, 400, 180⟩ = 2
    ∧ maxColumnsOf ⟨0, 0, 400, 180⟩ = 2
    ∧ ((snapTodosToSections c4Zones fxCanvas c4Todos).map Todo.position).get? 2 =
        some (jNum 200, jNum 90)
    ∧ ((snapTodosToSections c4Zones fxCanvas c4Todos).map Todo.position).get? 4 =
        some (jNum 200, jNum 90) := by
  decide
